import Mathlib

/-!
Verification of the quantitative signal-validation pipeline of the
AQI trading system (`tradingagents/quant_brain/`): `PositionSizer`,
`RiskEngine`, `SimpleBacktester` and `SignalValidator`.

Embedding conventions:
* Python floats are modelled as exact rationals (`ℚ`); Python ints as `Int`
  (`int(x)` truncation toward zero is `pyInt`).  `round(x, n)` is modelled by
  round-half-to-even on the exact rational, matching Python's behaviour on
  all decimally-exact inputs.
* Python dicts carrying the signal are modelled as a record of `Option`
  fields; `d.get(k, v)` is `o.getD v`, `d[k]` on a possibly missing key is an
  explicit `match` producing a `KeyError` in the `Except` monad.
* The external price-history fetch (`yfinance`) is a parameter of type
  `Except String (List ℚ)`: `.error` covers both an unavailable provider and
  an in-call exception, `.ok` is the fetched daily close series.
* `datetime.now()` is an explicit `now : String` parameter; the persistence
  layer (`_save_state` / `_load_state`, whose failures the source logs and
  swallows) performs no computation visible to the claims and is not
  modelled: engines are constructed from configured defaults.
* `math.sqrt` (used only inside the backtester's Sharpe ratio, whose exact
  value no claim depends on) is modelled by the fixed-precision rational
  approximation `ratSqrt`.
-/

namespace AQI

/-- Round-half-to-even of a rational to an integer, as Python's `round`
and string formatting do on decimally-exact values. -/
def roundHalfEven (q : ℚ) : Int :=
  if q - ⌊q⌋ < 1/2 then ⌊q⌋
  else if q - ⌊q⌋ > 1/2 then ⌊q⌋ + 1
  else if ⌊q⌋ % 2 = 0 then ⌊q⌋ else ⌊q⌋ + 1

/-- Python's `round(q, prec)`. -/
def pyRound (prec : Nat) (q : ℚ) : ℚ :=
  (roundHalfEven (q * (10 : ℚ) ^ prec) : ℚ) / (10 : ℚ) ^ prec

/-- Python's `int(q)`: truncation toward zero. -/
def pyInt (q : ℚ) : Int :=
  q.num.tdiv (q.den : Int)

/-- Left-pad a digit string with zeros to the given width. -/
def padZeros (s : String) (width : Nat) : String :=
  String.mk (List.replicate (width - s.length) '0') ++ s

/-- Python's fixed-point float formatting `f"{q:.precf}"`. -/
def formatFixed (prec : Nat) (q : ℚ) : String :=
  let scaled := roundHalfEven (q * (10 : ℚ) ^ prec)
  if prec = 0 then toString scaled
  else
    let sign := if scaled < 0 then "-" else ""
    let a := scaled.natAbs
    sign ++ toString (a / 10 ^ prec) ++ "." ++ padZeros (toString (a % 10 ^ prec)) prec

/-- Python's percentage formatting `f"{q:.0%}"`. -/
def formatPercent0 (q : ℚ) : String :=
  toString (roundHalfEven (q * 100)) ++ "%"

/-- Python's `str()` of a float, modelled exactly on integral values (the
only values the pipeline interpolates this way); other rationals are
rendered as a fraction. -/
def pyFloatRepr (q : ℚ) : String :=
  if q.den = 1 then toString q.num ++ ".0"
  else toString q.num ++ "/" ++ toString q.den

/-- Python's `sep.join(parts)`. -/
def joinSep (sep : String) : List String → String
  | [] => ""
  | [x] => x
  | x :: y :: t => x ++ sep ++ joinSep sep (y :: t)

/-- Substring occurrence test on character lists. -/
def containsSub : List Char → List Char → Bool
  | l, sub =>
    sub.isPrefixOf l ||
      (match l with
       | [] => false
       | _ :: t => containsSub t sub)

/-- Substring occurrence test on strings (`sub in s` in Python). -/
def strContains (s sub : String) : Bool :=
  containsSub s.data sub.data

/-- The structured signal dict produced by the AI decision process.  Every
field is optional because the source reads them with `dict.get`. -/
structure Signal where
  decision : Option String := none
  confidence : Option ℚ := none
  stop_loss_pct : Option ℚ := none
  target_pct : Option ℚ := none
  risk_reward_ratio : Option ℚ := none
  rationale : Option String := none
  ticker : Option String := none
  deriving DecidableEq

/-- The configuration dict shared by all components; absent keys fall back
to the defaults hard-coded in each constructor. -/
structure Config where
  max_drawdown_pct : Option ℚ := none
  max_position_pct : Option ℚ := none
  max_sector_pct : Option ℚ := none
  max_daily_loss_pct : Option ℚ := none
  max_positions : Option Nat := none
  min_risk_reward : Option ℚ := none
  min_confidence : Option ℚ := none
  portfolio_value : Option ℚ := none
  max_risk_per_trade_pct : Option ℚ := none
  kelly_fraction : Option ℚ := none
  backtest_lookback_days : Option Nat := none
  test_windows : Option (List Nat) := none
  deriving DecidableEq

/-! ## PositionSizer (`position_sizer.py`) -/

/-- Configuration state of `PositionSizer.__init__`. -/
structure PositionSizer where
  portfolio_value : ℚ
  max_risk_per_trade_pct : ℚ
  max_position_pct : ℚ
  kelly_fraction : ℚ
  deriving DecidableEq

/-- Constructor `PositionSizer(config)`. -/
def PositionSizer.init (config : Config) : PositionSizer where
  portfolio_value := config.portfolio_value.getD 100000
  max_risk_per_trade_pct := config.max_risk_per_trade_pct.getD 2
  max_position_pct := config.max_position_pct.getD 20
  kelly_fraction := config.kelly_fraction.getD (1/2)

/-- Result dict of `calculate_position`; `details` is `none` for the empty
(dict `{}`) shape produced by `_empty_result`. -/
structure SizingDetails where
  qty_by_risk_limit : Int
  qty_by_kelly : Int
  qty_by_max_position : Int
  win_prob : ℚ
  win_loss_ratio : ℚ
  deriving DecidableEq

structure SizingResult where
  quantity : Int
  investment_amount : ℚ
  investment_pct : ℚ
  risk_amount : ℚ
  risk_pct : ℚ
  stop_loss_price : ℚ
  target_price : ℚ
  kelly_fraction_used : ℚ
  method : String
  details : Option SizingDetails
  deriving DecidableEq

/-- Method `PositionSizer._empty_result(reason)`. -/
def PositionSizer.emptyResult (reason : String) : SizingResult where
  quantity := 0
  investment_amount := 0
  investment_pct := 0
  risk_amount := 0
  risk_pct := 0
  stop_loss_price := 0
  target_price := 0
  kelly_fraction_used := 0
  method := "REJECTED: " ++ reason
  details := none

/-- Source line `pv = portfolio_value or self.portfolio_value`: Python's `or` falls back
to the configured value when the argument is `None` **or zero** (a falsy
float). -/
def PositionSizer.effectivePV (s : PositionSizer) (pv : Option ℚ) : ℚ :=
  match pv with
  | some v => if v = 0 then s.portfolio_value else v
  | none => s.portfolio_value

/-- Source line `stop_loss_pct = -abs(stop_loss_pct) if stop_loss_pct != 0 else -5.0`. -/
def normStop (stop_loss_pct : ℚ) : ℚ :=
  if stop_loss_pct ≠ 0 then -|stop_loss_pct| else -5

/-- Source line `target_pct = abs(target_pct) if target_pct != 0 else 5.0`. -/
def normTarget (target_pct : ℚ) : ℚ :=
  if target_pct ≠ 0 then |target_pct| else 5

/-- Method 1 (fixed fractional risk): `int(risk_amount / price_risk_per_share)`. -/
def PositionSizer.qtyByRisk (s : PositionSizer) (pv current_price sl : ℚ) : Int :=
  let risk_amount := pv * (s.max_risk_per_trade_pct / 100)
  let price_risk_per_share := current_price * (|sl| / 100)
  if price_risk_per_share > 0 then pyInt (risk_amount / price_risk_per_share) else 0

/-- Source line `win_prob = min(0.95, max(0.1, confidence))`. -/
def winProb (confidence : ℚ) : ℚ :=
  min (95/100) (max (1/10) confidence)

/-- Source line `win_loss_ratio = target_pct / abs(stop_loss_pct) if abs(stop_loss_pct) > 0 else 1.0`. -/
def winLossRatio (sl tp : ℚ) : ℚ :=
  if |sl| > 0 then tp / |sl| else 1

/-- The fractional-Kelly percentage `max(0, (p*b - q)/b) * kelly_fraction`. -/
def PositionSizer.kellyPct (s : PositionSizer) (sl tp confidence : ℚ) : ℚ :=
  let win_prob := winProb confidence
  let loss_prob := 1 - win_prob
  let b := winLossRatio sl tp
  max 0 ((win_prob * b - loss_prob) / b) * s.kelly_fraction

/-- Method 2 (fractional Kelly): `int(pv * kelly_pct / current_price)`. -/
def PositionSizer.qtyByKelly (s : PositionSizer) (pv current_price sl tp confidence : ℚ) : Int :=
  if current_price > 0 then pyInt (pv * s.kellyPct sl tp confidence / current_price) else 0

/-- Method 3 (max position cap): `int(pv * (max_position_pct/100) / current_price)`. -/
def PositionSizer.qtyByMax (s : PositionSizer) (pv current_price : ℚ) : Int :=
  if current_price > 0 then pyInt (pv * (s.max_position_pct / 100) / current_price) else 0

/-- Method `PositionSizer.calculate_position`. -/
def PositionSizer.calculate_position (s : PositionSizer) (current_price stop_loss_pct target_pct confidence : ℚ) (portfolio_value : Option ℚ) : SizingResult :=
  let pv := s.effectivePV portfolio_value
  if current_price ≤ 0 ∨ pv ≤ 0 then
    PositionSizer.emptyResult "Invalid price or portfolio value"
  else
    let sl := normStop stop_loss_pct
    let tp := normTarget target_pct
    let price_risk_per_share := current_price * (|sl| / 100)
    let qty_by_risk := s.qtyByRisk pv current_price sl
    let kelly_pct := s.kellyPct sl tp confidence
    let qty_by_kelly := s.qtyByKelly pv current_price sl tp confidence
    let qty_by_max := s.qtyByMax pv current_price
    let final_qty := max 1 (min qty_by_risk (min qty_by_kelly qty_by_max))
    let investment_amount := (final_qty : ℚ) * current_price
    let actual_risk := (final_qty : ℚ) * price_risk_per_share
    { quantity := final_qty
      investment_amount := pyRound 2 investment_amount
      investment_pct := pyRound 2 (investment_amount / pv * 100)
      risk_amount := pyRound 2 actual_risk
      risk_pct := pyRound 2 (actual_risk / pv * 100)
      stop_loss_price := pyRound 2 (current_price * (1 + sl / 100))
      target_price := pyRound 2 (current_price * (1 + tp / 100))
      kelly_fraction_used := pyRound 4 kelly_pct
      method := "min(risk_limit, half_kelly, max_position)"
      details := some
        { qty_by_risk_limit := qty_by_risk
          qty_by_kelly := qty_by_kelly
          qty_by_max_position := qty_by_max
          win_prob := pyRound 2 (winProb confidence)
          win_loss_ratio := pyRound 2 (winLossRatio sl tp) } }

/-! ## RiskEngine (`risk_engine.py`) -/

/-- One tracked position (value of `self.positions[ticker]`). -/
structure Position where
  ticker : String
  quantity : Int
  entry_price : ℚ
  current_price : ℚ
  stop_loss : ℚ
  target : ℚ
  side : String
  entry_time : String
  unrealized_pnl : ℚ
  deriving DecidableEq

/-- Lookup in an insertion-ordered association list (Python dict). -/
def posLookup (m : List (String × Position)) (k : String) : Option Position :=
  match m with
  | [] => none
  | (k', v) :: t => if k' = k then some v else posLookup t k

/-- Insert/overwrite in an insertion-ordered association list (Python dict
assignment: an existing key keeps its place, a new key goes last). -/
def posInsert (m : List (String × Position)) (k : String) (v : Position) : List (String × Position) :=
  match m with
  | [] => [(k, v)]
  | (k', v') :: t => if k' = k then (k, v) :: t else (k', v') :: posInsert t k v

/-- Deletion from an insertion-ordered association list (Python `del`). -/
def posErase (m : List (String × Position)) (k : String) : List (String × Position) :=
  match m with
  | [] => []
  | (k', v') :: t => if k' = k then t else (k', v') :: posErase t k

/-- Mutable state of `RiskEngine` (configured limits plus portfolio state). -/
structure RiskEngine where
  max_portfolio_drawdown_pct : ℚ
  max_single_position_pct : ℚ
  max_sector_exposure_pct : ℚ
  max_daily_loss_pct : ℚ
  max_open_positions : Nat
  min_risk_reward : ℚ
  min_confidence : ℚ
  portfolio_value : ℚ
  positions : List (String × Position)
  daily_pnl : ℚ
  peak_value : ℚ
  deriving DecidableEq

/-- Constructor `RiskEngine(config)` started from configured defaults (no persisted
state file present). -/
def RiskEngine.init (config : Config) : RiskEngine where
  max_portfolio_drawdown_pct := config.max_drawdown_pct.getD 15
  max_single_position_pct := config.max_position_pct.getD 20
  max_sector_exposure_pct := config.max_sector_pct.getD 40
  max_daily_loss_pct := config.max_daily_loss_pct.getD 3
  max_open_positions := config.max_positions.getD 10
  min_risk_reward := config.min_risk_reward.getD (3/2)
  min_confidence := config.min_confidence.getD (1/2)
  portfolio_value := config.portfolio_value.getD 100000
  positions := []
  daily_pnl := 0
  peak_value := config.portfolio_value.getD 100000

/-- Source line `daily_loss_pct = (daily_pnl / portfolio_value * 100) if portfolio_value > 0 else 0`. -/
def RiskEngine.dailyLossPct (e : RiskEngine) : ℚ :=
  if e.portfolio_value > 0 then e.daily_pnl / e.portfolio_value * 100 else 0

/-- Source line `current_drawdown = ((peak_value - portfolio_value) / peak_value * 100) if peak_value > 0 else 0`. -/
def RiskEngine.currentDrawdown (e : RiskEngine) : ℚ :=
  if e.peak_value > 0 then (e.peak_value - e.portfolio_value) / e.peak_value * 100 else 0

/-- Rule 2 message. -/
def confidenceMsg (confidence minc : ℚ) : String :=
  "Confidence " ++ formatFixed 2 confidence ++ " below minimum " ++ formatFixed 2 minc

/-- Rule 3 message. -/
def riskRewardMsg (risk_reward minrr : ℚ) : String :=
  "Risk-reward ratio " ++ formatFixed 2 risk_reward ++ " below minimum " ++ formatFixed 2 minrr

/-- Rule 4 message. -/
def maxPositionsMsg (n : Nat) : String :=
  "Max positions (" ++ toString n ++ ") already reached"

/-- Rule 5 (daily-loss kill switch) message. -/
def dailyLossMsg (daily_loss_pct limit : ℚ) : String :=
  "KILL SWITCH: Daily loss " ++ formatFixed 1 daily_loss_pct ++ "% exceeds limit -" ++
    pyFloatRepr limit ++ "%"

/-- Rule 6 (drawdown kill switch) message. -/
def drawdownMsg (current_drawdown limit : ℚ) : String :=
  "KILL SWITCH: Portfolio drawdown " ++ formatFixed 1 current_drawdown ++ "% exceeds limit " ++
    pyFloatRepr limit ++ "%"

/-- The `rejections` list accumulated by `validate_trade` for a non-HOLD
signal, in source order (rules 2-6; none of them short-circuits). -/
def RiskEngine.rejectionsOf (e : RiskEngine) (signal : Signal) : List String :=
  let decision := signal.decision.getD "HOLD"
  let confidence := signal.confidence.getD 0
  let risk_reward := signal.risk_reward_ratio.getD 0
  (if confidence < e.min_confidence then [confidenceMsg confidence e.min_confidence] else []) ++
  (if risk_reward < e.min_risk_reward ∧ decision ≠ "HOLD" then
    [riskRewardMsg risk_reward e.min_risk_reward] else []) ++
  (if e.positions.length ≥ e.max_open_positions ∧ decision = "BUY" then
    [maxPositionsMsg e.max_open_positions] else []) ++
  (if e.dailyLossPct ≤ -e.max_daily_loss_pct then
    [dailyLossMsg e.dailyLossPct e.max_daily_loss_pct] else []) ++
  (if e.currentDrawdown ≥ e.max_portfolio_drawdown_pct then
    [drawdownMsg e.currentDrawdown e.max_portfolio_drawdown_pct] else [])

/-- The `warnings` list accumulated by `validate_trade` for a non-HOLD
signal (rules 7-8, advisory only). -/
def RiskEngine.warningsOf (e : RiskEngine) (signal : Signal) : List String :=
  let decision := signal.decision.getD "HOLD"
  let ticker := signal.ticker.getD "UNKNOWN"
  (if (posLookup e.positions ticker).isSome ∧ decision = "BUY" then
    ["Already hold position in " ++ ticker] else []) ++
  (if (decision = "BUY" ∨ decision = "SELL") ∧ signal.stop_loss_pct.getD 0 = 0 then
    ["No stop-loss defined — adding default -5%"] else [])

/-- Result dict of `validate_trade`. -/
structure RiskResult where
  approved : Bool
  reason : String
  adjusted_signal : Signal
  warnings : List String
  deriving DecidableEq

/-- Method `RiskEngine.validate_trade(signal)`.  The engine is returned alongside
the result: the source method reads but never writes `self`'s portfolio
state, and the rule-8 default is an in-place mutation of the caller's
signal dict, surfaced here through `adjusted_signal`. -/
def RiskEngine.validate_trade (e : RiskEngine) (signal : Signal) : RiskResult × RiskEngine :=
  let decision := signal.decision.getD "HOLD"
  if decision = "HOLD" then
    ({ approved := true
       reason := "HOLD signal — no trade required"
       adjusted_signal := signal
       warnings := [] }, e)
  else
    let signal' :=
      if (decision = "BUY" ∨ decision = "SELL") ∧ signal.stop_loss_pct.getD 0 = 0 then
        { signal with stop_loss_pct := some (-5) }
      else signal
    let rejections := e.rejectionsOf signal
    let warnings := e.warningsOf signal
    if rejections = [] then
      ({ approved := true
         reason := "All risk checks passed"
         adjusted_signal := signal'
         warnings := warnings }, e)
    else
      ({ approved := false
         reason := joinSep " | " rejections
         adjusted_signal := signal'
         warnings := warnings }, e)

/-- Method `RiskEngine.register_position` (`datetime.now()` passed in as `now`). -/
def RiskEngine.register_position (e : RiskEngine) (ticker : String) (quantity : Int) (price stop_loss target : ℚ) (side : String) (now : String) : RiskEngine :=
  let pos : Position :=
    { ticker := ticker
      quantity := quantity
      entry_price := price
      current_price := price
      stop_loss := stop_loss
      target := target
      side := side
      entry_time := now
      unrealized_pnl := 0 }
  { e with positions := posInsert e.positions ticker pos }

/-- Method `RiskEngine.update_position`. -/
def RiskEngine.update_position (e : RiskEngine) (ticker : String) (current_price : ℚ) : RiskEngine :=
  match posLookup e.positions ticker with
  | none => e
  | some pos =>
    let pnl :=
      if pos.side = "BUY" then (current_price - pos.entry_price) * (pos.quantity : ℚ)
      else (pos.entry_price - current_price) * (pos.quantity : ℚ)
    let pos' := { pos with current_price := current_price, unrealized_pnl := pnl }
    { e with positions := posInsert e.positions ticker pos' }

/-- Result dict of a successful `close_position`. -/
structure CloseResult where
  ticker : String
  realized_pnl : ℚ
  entry_price : ℚ
  exit_price : ℚ
  quantity : Int
  hold_time : String
  deriving DecidableEq

/-- Method `RiskEngine.close_position`: realizes P&L into portfolio state, raises
the peak on a new high, deletes the position; `{"error": ...}` on an
unknown ticker is the `.error` case. -/
def RiskEngine.close_position (e : RiskEngine) (ticker : String) (exit_price : ℚ) : Except String CloseResult × RiskEngine :=
  match posLookup e.positions ticker with
  | none => (.error ("No position found for " ++ ticker), e)
  | some pos =>
    let realized_pnl :=
      if pos.side = "BUY" then (exit_price - pos.entry_price) * (pos.quantity : ℚ)
      else (pos.entry_price - exit_price) * (pos.quantity : ℚ)
    let pv := e.portfolio_value + realized_pnl
    let peak := if pv > e.peak_value then pv else e.peak_value
    (.ok
      { ticker := ticker
        realized_pnl := pyRound 2 realized_pnl
        entry_price := pos.entry_price
        exit_price := exit_price
        quantity := pos.quantity
        hold_time := pos.entry_time },
     { e with portfolio_value := pv
              daily_pnl := e.daily_pnl + realized_pnl
              peak_value := peak
              positions := posErase e.positions ticker })

/-- Method `RiskEngine.check_stop_losses`. -/
def RiskEngine.check_stop_losses (e : RiskEngine) : List String :=
  (e.positions.filter fun kp =>
    (kp.2.side == "BUY" && decide (kp.2.current_price ≤ kp.2.stop_loss)) ||
    (kp.2.side == "SELL" && decide (kp.2.current_price ≥ kp.2.stop_loss))).map (·.1)

/-- Method `RiskEngine.reset_daily`. -/
def RiskEngine.reset_daily (e : RiskEngine) : RiskEngine :=
  { e with daily_pnl := 0 }

/-! ## SimpleBacktester (`backtester.py`) -/

/-- Configuration state of `SimpleBacktester.__init__`. -/
structure Backtester where
  lookback_days : Nat
  test_windows : List Nat
  deriving DecidableEq

/-- Constructor `SimpleBacktester(config)`. -/
def Backtester.init (config : Config) : Backtester where
  lookback_days := config.backtest_lookback_days.getD 252
  test_windows := config.test_windows.getD [5, 10, 20, 60]

/-- How a simulated trade left the market (the source's `hit_sl` /
`hit_target` flags, with `window` for running out the hold period). -/
inductive ExitKind
  | stop
  | target
  | window
  deriving DecidableEq

/-- The per-bar move `change_pct` for the simulated side (also the final
per-trade return formula: BUY `(x-entry)/entry*100`, otherwise
`(entry-x)/entry*100`). -/
def tradeChange (decision : String) (entry x : ℚ) : ℚ :=
  if decision = "BUY" then (x - entry) / entry * 100 else (entry - x) / entry * 100

/-- Exit price at the exact stop level. -/
def stopExitPrice (decision : String) (entry sl : ℚ) : ℚ :=
  if decision = "BUY" then entry * (1 + sl / 100) else entry * (1 - sl / 100)

/-- Exit price at the exact target level. -/
def targetExitPrice (decision : String) (entry tp : ℚ) : ℚ :=
  if decision = "BUY" then entry * (1 + tp / 100) else entry * (1 - tp / 100)

/-- The inner bar walk of `_simulate_trades`: scan the hold-period bars,
exiting at the exact stop level on a breach of `sl`, at the exact target
level on a breach of `tp`, or at the last bar's close; a decision other
than BUY/SELL leaves the exit at the entry price, as in the source. -/
def walkBars (decision : String) (sl tp entry : ℚ) : List ℚ → ℚ × ExitKind
  | [] => (entry, .window)
  | x :: rest =>
    if decision = "BUY" ∨ decision = "SELL" then
      let change := tradeChange decision entry x
      if change ≤ sl then (stopExitPrice decision entry sl, .stop)
      else if change ≥ tp then (targetExitPrice decision entry tp, .target)
      else if rest = [] then (x, .window)
      else walkBars decision sl tp entry rest
    else (entry, .window)

/-- Entry bars of the walk-forward simulation: `range(0, len - hold, 5)`. -/
def entryIndices (len hold : Nat) : List Nat :=
  (List.range (len - hold)).filter fun i => i % 5 = 0

/-- The hold-period bars examined after entering at bar `i`:
`closes[i+j]` for `j in range(1, min(hold+1, len-i))`. -/
def entryPath (closes : List ℚ) (i hold : Nat) : List ℚ :=
  (closes.drop (i + 1)).take (min (hold + 1) (closes.length - i) - 1)

/-- Method `SimpleBacktester._simulate_trades`: per-trade percentage returns of
entries every 5 bars. -/
def simulateTrades (closes : List ℚ) (decision : String) (stop_loss_pct target_pct : ℚ) (hold_days : Nat) : List ℚ :=
  let sl := -|stop_loss_pct|
  let tp := |target_pct|
  (entryIndices closes.length hold_days).map fun i =>
    let entry := closes.getD i 0
    tradeChange decision entry (walkBars decision sl tp entry (entryPath closes i hold_days)).1

/-- Fixed-precision rational stand-in for `math.sqrt` (see the header). -/
def ratSqrt (q : ℚ) : ℚ :=
  if 0 ≤ q then ((Nat.sqrt (q * 10 ^ 12).floor.toNat : ℚ)) / 10 ^ 6 else 0

/-- Library call `statistics.mean`. -/
def listMean (l : List ℚ) : ℚ :=
  l.sum / l.length

/-- Library call `statistics.stdev` (sample standard deviation). -/
def listStdev (l : List ℚ) : ℚ :=
  ratSqrt ((l.map fun r => (r - listMean l) ^ 2).sum / ((l.length : ℚ) - 1))

/-- The max-drawdown loop of `_compute_stats`: largest peak-to-trough drop
of the running cumulative sum of returns. -/
def maxDrawdownLoop : List ℚ → ℚ → ℚ → ℚ → ℚ
  | [], _, _, max_dd => max_dd
  | r :: rest, cumulative, peak, max_dd =>
    let c := cumulative + r
    let p := if c > peak then c else peak
    let dd := p - c
    maxDrawdownLoop rest c p (if dd > max_dd then dd else max_dd)

/-- Per-window statistics dict of `_compute_stats`. -/
structure Stats where
  win_rate : ℚ
  avg_return_pct : ℚ
  sharpe_ratio : ℚ
  max_drawdown_pct : ℚ
  trade_count : Nat
  avg_win : ℚ
  avg_loss : ℚ
  deriving DecidableEq

/-- Method `SimpleBacktester._compute_stats`. -/
def computeStats (returns : List ℚ) : Stats :=
  match returns with
  | [] =>
    { win_rate := 0, avg_return_pct := 0, sharpe_ratio := 0, max_drawdown_pct := 0
      trade_count := 0, avg_win := 0, avg_loss := 0 }
  | _ :: _ =>
    let wins := returns.filter fun r => r > 0
    let losses := returns.filter fun r => r ≤ 0
    let win_rate := (wins.length : ℚ) / returns.length
    let avg_return := listMean returns
    let sharpe :=
      if 1 < returns.length then
        let std_dev := listStdev returns
        if std_dev > 0 then avg_return / std_dev * ratSqrt 252 else 0
      else 0
    { win_rate := pyRound 3 win_rate
      avg_return_pct := pyRound 2 avg_return
      sharpe_ratio := pyRound 2 sharpe
      max_drawdown_pct := pyRound 2 (maxDrawdownLoop returns 0 0 0)
      trade_count := returns.length
      avg_win := if wins ≠ [] then pyRound 2 (listMean wins) else 0
      avg_loss := if losses ≠ [] then pyRound 2 (listMean losses) else 0 }

/-- Result dict of `backtest_signal`; `best_hold_period` / `all_windows`
are `none` on the early-return shapes that omit those keys. -/
structure BacktestResult where
  approved : Bool
  reason : String
  win_rate : ℚ
  avg_return_pct : ℚ
  sharpe_ratio : ℚ
  max_drawdown_pct : ℚ
  trade_count : Nat
  best_hold_period : Option String
  all_windows : Option (List (String × Stats))
  deriving DecidableEq

/-- The zero-statistics early-return shape of `backtest_signal`. -/
def zeroBacktest (reason : String) : BacktestResult where
  approved := true
  reason := reason
  win_rate := 0
  avg_return_pct := 0
  sharpe_ratio := 0
  max_drawdown_pct := 0
  trade_count := 0
  best_hold_period := none
  all_windows := none

/-- Fail-open reason for a failed fetch (the source's catch-all handler;
an unavailable `yfinance` import is the same failure mode with its own
wording). -/
def backtestErrorReason (e : String) : String :=
  "Backtest error (proceeding anyway): " ++ e.take 100

/-- Fail-open reason for an empty or short price series. -/
def insufficientDataReason (ticker : String) : String :=
  "Insufficient historical data for " ++ ticker

/-- Selection `max(all_results.keys(), key=sharpe)`: first window of maximal Sharpe,
in insertion order. -/
def bestWindow : List (String × Stats) → Option (String × Stats)
  | [] => none
  | x :: xs => some (xs.foldl (fun acc y => if y.2.sharpe_ratio > acc.2.sharpe_ratio then y else acc) x)

/-- Label `f"{hold_days}d"` of a hold window. -/
def holdLabel (hold : Nat) : String :=
  toString hold ++ "d"

/-- Method `SimpleBacktester.backtest_signal`, with the price-history fetch
passed in as `fetch`. -/
def Backtester.backtest_signal (b : Backtester) (ticker decision : String) (stop_loss_pct target_pct : ℚ) (fetch : Except String (List ℚ)) : BacktestResult :=
  if decision = "HOLD" then zeroBacktest "HOLD — no backtest needed"
  else
    match fetch with
    | .error e => zeroBacktest (backtestErrorReason e)
    | .ok closes =>
      if closes.length < 30 then zeroBacktest (insufficientDataReason ticker)
      else
        let all_results := b.test_windows.filterMap fun hold_days =>
          let trades := simulateTrades closes decision stop_loss_pct target_pct hold_days
          if trades = [] then none else some (holdLabel hold_days, computeStats trades)
        match bestWindow all_results with
        | none => zeroBacktest "No valid backtest trades generated"
        | some (bw, best) =>
          let reason_parts :=
            (if best.win_rate < 2/5 then ["Low win rate: " ++ formatPercent0 best.win_rate] else []) ++
            (if best.sharpe_ratio < 1/2 then ["Low Sharpe: " ++ formatFixed 2 best.sharpe_ratio] else []) ++
            (if best.max_drawdown_pct > 25 then ["High drawdown: " ++ formatFixed 1 best.max_drawdown_pct ++ "%"] else [])
          { approved := decide (best.win_rate ≥ 2/5 ∧ best.sharpe_ratio ≥ 1/2 ∧ best.max_drawdown_pct ≤ 25)
            reason :=
              if reason_parts = [] then "Backtest passed (" ++ bw ++ " hold)"
              else joinSep " | " reason_parts
            win_rate := best.win_rate
            avg_return_pct := best.avg_return_pct
            sharpe_ratio := best.sharpe_ratio
            max_drawdown_pct := best.max_drawdown_pct
            trade_count := best.trade_count
            best_hold_period := some bw
            all_windows := some all_results }

/-! ## SignalValidator (`signal_validator.py`) -/

/-- The state of one pipeline (the three components share one config). -/
structure Validator where
  risk_engine : RiskEngine
  backtester : Backtester
  position_sizer : PositionSizer
  deriving DecidableEq

/-- Constructor `SignalValidator(config)`. -/
def Validator.init (config : Config) : Validator where
  risk_engine := RiskEngine.init config
  backtester := Backtester.init config
  position_sizer := PositionSizer.init config

/-- The `steps["backtest"]` entry: `{"skipped": True}` or the backtest
result dict. -/
inductive BacktestStep
  | skipped
  | ran (r : BacktestResult)
  deriving DecidableEq

/-- The terminal order dict assembled on full approval. -/
structure Order where
  ticker : String
  side : String
  quantity : Int
  order_type : String
  price : ℚ
  stop_loss : ℚ
  target : ℚ
  investment_amount : ℚ
  risk_amount : ℚ
  confidence : ℚ
  rationale : String
  deriving DecidableEq

/-- The ValidationResult dict returned by `validate_and_size`. `Option`
fields model dict keys that some return paths never set. -/
structure ValidationResult where
  ticker : String
  decision : String
  current_price : ℚ
  timestamp : String
  steps_backtest : Option BacktestStep
  steps_risk : Option RiskResult
  steps_position_sizing : Option SizingResult
  approved : Bool
  order : Option Order
  reason : String
  warnings : Option (List String)
  deriving DecidableEq

/-- Stages 3-5 of `validate_and_size` (risk gate, sizing gate, order
assembly), entered with the post-backtest signal.  The final `match` is the
source's `signal["decision"]` at order assembly, a `KeyError` on a dict
without that key. -/
def Validator.pipelineTail (v : Validator) (signal : Signal) (current_price : ℚ) (ticker : String) (sb : BacktestStep) (now : String) : Except String (ValidationResult × Signal × RiskEngine) :=
  let risk_result := (v.risk_engine.validate_trade signal).1
  let e' := (v.risk_engine.validate_trade signal).2
  let signal := risk_result.adjusted_signal
  if ¬risk_result.approved then
    .ok
      ({ ticker := ticker
         decision := signal.decision.getD "HOLD"
         current_price := current_price
         timestamp := now
         steps_backtest := some sb
         steps_risk := some risk_result
         steps_position_sizing := none
         approved := false
         order := none
         reason := "RISK REJECTED: " ++ risk_result.reason
         warnings := none }, signal, e')
  else
    let position := v.position_sizer.calculate_position current_price
      (signal.stop_loss_pct.getD (-5)) (signal.target_pct.getD 5)
      (signal.confidence.getD (1/2)) (some v.risk_engine.portfolio_value)
    if position.quantity ≤ 0 then
      .ok
        ({ ticker := ticker
           decision := signal.decision.getD "HOLD"
           current_price := current_price
           timestamp := now
           steps_backtest := some sb
           steps_risk := some risk_result
           steps_position_sizing := some position
           approved := false
           order := none
           reason := "SIZING REJECTED: " ++ position.method
           warnings := none }, signal, e')
    else
      match signal.decision with
      | none => .error "KeyError: decision"
      | some d =>
        let order : Order :=
          { ticker := ticker
            side := d
            quantity := position.quantity
            order_type := "LIMIT"
            price := current_price
            stop_loss := position.stop_loss_price
            target := position.target_price
            investment_amount := position.investment_amount
            risk_amount := position.risk_amount
            confidence := signal.confidence.getD (1/2)
            rationale := signal.rationale.getD "N/A" }
        .ok
          ({ ticker := ticker
             decision := signal.decision.getD "HOLD"
             current_price := current_price
             timestamp := now
             steps_backtest := some sb
             steps_risk := some risk_result
             steps_position_sizing := some position
             approved := true
             order := some order
             reason := "ALL CHECKS PASSED"
             warnings := some risk_result.warnings }, signal, e')

/-- Method `SignalValidator.validate_and_size`.  The audit-log append (`_log`) is
pure I/O whose failures the source swallows; it is not modelled.  The first
`match` inside the backtest stage is the source's `signal["decision"]`, a
`KeyError` on a dict without that key. -/
def Validator.validate_and_size (v : Validator) (signal : Signal) (current_price : ℚ) (ticker : String) (skip_backtest : Bool) (fetch : Except String (List ℚ)) (now : String) : Except String (ValidationResult × Signal × RiskEngine) :=
  let signal := { signal with ticker := some ticker }
  if signal.decision = some "HOLD" then
    .ok
      ({ ticker := ticker
         decision := signal.decision.getD "HOLD"
         current_price := current_price
         timestamp := now
         steps_backtest := none
         steps_risk := none
         steps_position_sizing := none
         approved := true
         order := none
         reason := "HOLD signal — no order generated"
         warnings := none }, signal, v.risk_engine)
  else
    if skip_backtest then
      v.pipelineTail signal current_price ticker .skipped now
    else
      match signal.decision with
      | none => .error "KeyError: decision"
      | some d =>
        let backtest_result := v.backtester.backtest_signal ticker d
          (signal.stop_loss_pct.getD (-5)) (signal.target_pct.getD 5) fetch
        if ¬backtest_result.approved then
          .ok
            ({ ticker := ticker
               decision := signal.decision.getD "HOLD"
               current_price := current_price
               timestamp := now
               steps_backtest := some (.ran backtest_result)
               steps_risk := none
               steps_position_sizing := none
               approved := false
               order := none
               reason := "BACKTEST REJECTED: " ++ backtest_result.reason
               warnings := none }, signal, v.risk_engine)
        else
          v.pipelineTail signal current_price ticker (.ran backtest_result) now

/-! ## Derived notions named by the claims -/

/-- The spec's PortfolioState invariant: the peak is a high-water mark of
the portfolio value. -/
def RiskEngine.inv (e : RiskEngine) : Prop :=
  e.portfolio_value ≤ e.peak_value

/-- Return and exit kind of the single simulated trade entered at bar `i`
(the body of the outer loop of `_simulate_trades`). -/
def tradeOutcome (closes : List ℚ) (decision : String) (stop_loss_pct target_pct : ℚ) (hold_days i : Nat) : ℚ × ExitKind :=
  let entry := closes.getD i 0
  let p := walkBars decision (-|stop_loss_pct|) |target_pct| entry (entryPath closes i hold_days)
  (tradeChange decision entry p.1, p.2)

/-! ## Helper lemmas -/

theorem simulateTrades_eq_map (closes : List ℚ) (decision : String) (slp tpp : ℚ) (hold : Nat) :
    simulateTrades closes decision slp tpp hold =
      (entryIndices closes.length hold).map fun i => (tradeOutcome closes decision slp tpp hold i).1 :=
  rfl

/-- Lemma: `validate_trade` never writes the engine's portfolio state. -/
theorem RiskEngine.validate_trade_snd (e : RiskEngine) (s : Signal) :
    (e.validate_trade s).2 = e := by
  simp only [RiskEngine.validate_trade]
  repeat' split
  all_goals rfl

/-- The adjusted signal of `validate_trade` is the input signal, except
that a zero/missing stop-loss may be defaulted to `-5`. -/
theorem RiskEngine.validate_trade_adjusted (e : RiskEngine) (s : Signal) :
    (e.validate_trade s).1.adjusted_signal = s ∨
      (s.stop_loss_pct.getD 0 = 0 ∧
        (e.validate_trade s).1.adjusted_signal = { s with stop_loss_pct := some (-5) }) := by
  simp only [RiskEngine.validate_trade]
  repeat' split
  all_goals simp_all

/-! ## C9 -/

/-- C9 (counterexample): with a supplied `portfolio_value` argument of `0`
(which is ≤ 0, so the claim demands a zero-quantity rejected result) and a
positive price, `calculate_position` silently falls back to the configured
portfolio value of 100000 — Python's `or` treats the float `0.0` as absent
— and returns quantity 200, not 0. -/
theorem c9_counterexample :
    ((PositionSizer.init {}).calculate_position 100 (-5) 10 (4/5) (some 0)).quantity = 200 ∧
    ((PositionSizer.init {}).calculate_position 100 (-5) 10 (4/5) (some 0)).method =
      "min(risk_limit, half_kelly, max_position)" := by
  constructor
  · norm_num [PositionSizer.calculate_position, PositionSizer.init, PositionSizer.effectivePV,
      PositionSizer.qtyByRisk, PositionSizer.qtyByKelly, PositionSizer.qtyByMax,
      PositionSizer.kellyPct, winProb, winLossRatio, normStop, normTarget, pyInt]
  · norm_num [PositionSizer.calculate_position, PositionSizer.init, PositionSizer.effectivePV]

/-- C9 (amended): whenever `current_price ≤ 0` or the portfolio value in
effect — Python's `portfolio_value or self.portfolio_value`, i.e. the
argument when supplied *and nonzero*, otherwise the configured value — is
≤ 0, the result is the zero-quantity rejected result carrying the
rejection reason. -/
theorem calculate_position_rejects_nonpositive (s : PositionSizer) (current_price stop_loss_pct target_pct confidence : ℚ) (pv : Option ℚ)
    (h : current_price ≤ 0 ∨ s.effectivePV pv ≤ 0) :
    s.calculate_position current_price stop_loss_pct target_pct confidence pv =
      PositionSizer.emptyResult "Invalid price or portfolio value" ∧
    (s.calculate_position current_price stop_loss_pct target_pct confidence pv).quantity = 0 := by
  simp only [PositionSizer.calculate_position]
  rw [if_pos h]
  exact ⟨rfl, rfl⟩

/-- C9 witness: the amended theorem applied at a concrete negative price. -/
theorem calculate_position_rejects_nonpositive_witness :
    (((-3 : ℚ) ≤ 0 ∨ (PositionSizer.init {}).effectivePV none ≤ 0) ∧
      ((PositionSizer.init {}).calculate_position (-3) (-5) 10 (1/2) none).quantity = 0) :=
  ⟨Or.inl (by norm_num),
   (calculate_position_rejects_nonpositive (PositionSizer.init {}) (-3) (-5) 10 (1/2) none
     (Or.inl (by norm_num))).2⟩

/-! ## C3 -/

/-- C3: for positive price and positive effective portfolio value, the
returned quantity is `max 1 (min of the three candidate quantities)`; in
particular when all three candidates are ≥ 1 the result is ≥ 1, equals
exactly their minimum, and exceeds none of them. -/
theorem calculate_position_min_of_three (s : PositionSizer) (current_price stop_loss_pct target_pct confidence : ℚ) (pv : Option ℚ)
    (hp : 0 < current_price) (hpv : 0 < s.effectivePV pv) :
    ((s.calculate_position current_price stop_loss_pct target_pct confidence pv).quantity =
      max 1 (min (s.qtyByRisk (s.effectivePV pv) current_price (normStop stop_loss_pct))
        (min (s.qtyByKelly (s.effectivePV pv) current_price (normStop stop_loss_pct) (normTarget target_pct) confidence)
          (s.qtyByMax (s.effectivePV pv) current_price)))) ∧
    (1 ≤ s.qtyByRisk (s.effectivePV pv) current_price (normStop stop_loss_pct) →
     1 ≤ s.qtyByKelly (s.effectivePV pv) current_price (normStop stop_loss_pct) (normTarget target_pct) confidence →
     1 ≤ s.qtyByMax (s.effectivePV pv) current_price →
      (s.calculate_position current_price stop_loss_pct target_pct confidence pv).quantity =
        min (s.qtyByRisk (s.effectivePV pv) current_price (normStop stop_loss_pct))
          (min (s.qtyByKelly (s.effectivePV pv) current_price (normStop stop_loss_pct) (normTarget target_pct) confidence)
            (s.qtyByMax (s.effectivePV pv) current_price)) ∧
      1 ≤ (s.calculate_position current_price stop_loss_pct target_pct confidence pv).quantity ∧
      (s.calculate_position current_price stop_loss_pct target_pct confidence pv).quantity ≤
        s.qtyByRisk (s.effectivePV pv) current_price (normStop stop_loss_pct) ∧
      (s.calculate_position current_price stop_loss_pct target_pct confidence pv).quantity ≤
        s.qtyByKelly (s.effectivePV pv) current_price (normStop stop_loss_pct) (normTarget target_pct) confidence ∧
      (s.calculate_position current_price stop_loss_pct target_pct confidence pv).quantity ≤
        s.qtyByMax (s.effectivePV pv) current_price) := by
  have hq : (s.calculate_position current_price stop_loss_pct target_pct confidence pv).quantity =
      max 1 (min (s.qtyByRisk (s.effectivePV pv) current_price (normStop stop_loss_pct))
        (min (s.qtyByKelly (s.effectivePV pv) current_price (normStop stop_loss_pct) (normTarget target_pct) confidence)
          (s.qtyByMax (s.effectivePV pv) current_price))) := by
    simp only [PositionSizer.calculate_position]
    rw [if_neg]
    push_neg
    exact ⟨hp, hpv⟩
  refine ⟨hq, fun h1 h2 h3 => ?_⟩
  have hmin : (1 : Int) ≤ min (s.qtyByRisk (s.effectivePV pv) current_price (normStop stop_loss_pct))
      (min (s.qtyByKelly (s.effectivePV pv) current_price (normStop stop_loss_pct) (normTarget target_pct) confidence)
        (s.qtyByMax (s.effectivePV pv) current_price)) :=
    le_min h1 (le_min h2 h3)
  rw [hq, max_eq_right hmin]
  refine ⟨rfl, hmin, min_le_left _ _, le_trans (min_le_right _ _) (min_le_left _ _),
    le_trans (min_le_right _ _) (min_le_right _ _)⟩

/-- C3 witness: the spec's worked example (price 1000, stop −5, target 10,
confidence 0.8): candidates 40 / 35 / 20, final quantity 20. -/
theorem calculate_position_min_of_three_witness :
    ((0 : ℚ) < 1000 ∧ (0 : ℚ) < (PositionSizer.init {}).effectivePV (some 100000)) ∧
    ((PositionSizer.init {}).calculate_position 1000 (-5) 10 (4/5) (some 100000)).quantity =
      max 1 (min ((PositionSizer.init {}).qtyByRisk ((PositionSizer.init {}).effectivePV (some 100000)) 1000 (normStop (-5)))
        (min ((PositionSizer.init {}).qtyByKelly ((PositionSizer.init {}).effectivePV (some 100000)) 1000 (normStop (-5)) (normTarget 10) (4/5))
          ((PositionSizer.init {}).qtyByMax ((PositionSizer.init {}).effectivePV (some 100000)) 1000))) ∧
    ((PositionSizer.init {}).calculate_position 1000 (-5) 10 (4/5) (some 100000)).quantity = 20 :=
  ⟨⟨by norm_num, by norm_num [PositionSizer.init, PositionSizer.effectivePV]⟩,
   (calculate_position_min_of_three (PositionSizer.init {}) 1000 (-5) 10 (4/5) (some 100000)
      (by norm_num) (by norm_num [PositionSizer.init, PositionSizer.effectivePV])).1,
   by norm_num [PositionSizer.calculate_position, PositionSizer.init, PositionSizer.effectivePV,
     PositionSizer.qtyByRisk, PositionSizer.qtyByKelly, PositionSizer.qtyByMax,
     PositionSizer.kellyPct, winProb, winLossRatio, normStop, normTarget, pyInt]⟩

/-! ## C5 -/

/-- The peak high-water-mark update `if pv > peak then pv else peak`. -/
theorem peak_update_spec (peak pv : ℚ) :
    pv ≤ (if pv > peak then pv else peak) ∧
    peak ≤ (if pv > peak then pv else peak) ∧
    (peak < (if pv > peak then pv else peak) ↔ peak < pv) := by
  split
  · rename_i hgt
    exact ⟨le_refl _, le_of_lt hgt, iff_of_true hgt hgt⟩
  · rename_i hng
    push_neg at hng
    refine ⟨hng, le_refl _, ?_⟩
    simp only [lt_self_iff_false, false_iff, not_lt]
    exact hng

/-- C5: `peak_value ≥ portfolio_value` holds after construction from
defaults and is preserved by every state-mutating operation; no operation
decreases `peak_value`, and `close_position` raises it exactly when the
new portfolio value exceeds the old peak. -/
theorem riskengine_peak_invariant (cfg : Config) (e : RiskEngine) (h : e.inv)
    (s : Signal) (t side now : String) (q : Int) (price stop_l tgt exit_p cur_p : ℚ) :
    (RiskEngine.init cfg).inv ∧
    (RiskEngine.init cfg).peak_value = (RiskEngine.init cfg).portfolio_value ∧
    (e.validate_trade s).2 = e ∧
    ((e.register_position t q price stop_l tgt side now).inv ∧
      (e.register_position t q price stop_l tgt side now).peak_value = e.peak_value) ∧
    ((e.update_position t cur_p).inv ∧ (e.update_position t cur_p).peak_value = e.peak_value) ∧
    (e.reset_daily.inv ∧ e.reset_daily.peak_value = e.peak_value) ∧
    ((e.close_position t exit_p).2.inv ∧
      e.peak_value ≤ (e.close_position t exit_p).2.peak_value ∧
      (e.peak_value < (e.close_position t exit_p).2.peak_value ↔
        e.peak_value < (e.close_position t exit_p).2.portfolio_value)) := by
  refine ⟨le_refl _, rfl, RiskEngine.validate_trade_snd e s, ⟨h, rfl⟩, ?_, ⟨h, rfl⟩, ?_⟩
  · unfold RiskEngine.update_position
    cases posLookup e.positions t with
    | none => exact ⟨h, rfl⟩
    | some pos => exact ⟨h, rfl⟩
  · unfold RiskEngine.close_position
    cases posLookup e.positions t with
    | none =>
      refine ⟨h, le_refl _, ?_⟩
      simp only [lt_self_iff_false, false_iff, not_lt]
      exact h
    | some pos =>
      simp only [RiskEngine.inv]
      exact ⟨(peak_update_spec _ _).1, (peak_update_spec _ _).2.1, (peak_update_spec _ _).2.2⟩

/-- C5 witness: the invariant theorem applied to the freshly constructed
default engine (whose invariant holds by its first conjunct). -/
theorem riskengine_peak_invariant_witness :
    (RiskEngine.init {}).inv ∧
    (((RiskEngine.init {}).close_position "TCS" 50).2.inv ∧
      (RiskEngine.init {}).peak_value ≤ ((RiskEngine.init {}).close_position "TCS" 50).2.peak_value) := by
  have h0 : (RiskEngine.init {}).inv := le_refl _
  have h := riskengine_peak_invariant {} (RiskEngine.init {}) h0 {} "TCS" "BUY" "t0" 1 100 95 110 50 100
  exact ⟨h.1, h.2.2.2.2.2.2.1, h.2.2.2.2.2.2.2.1⟩

/-! ## Substring helper lemmas -/

theorem containsSub_of_isPrefixOf (l sub : List Char) (h : sub.isPrefixOf l = true) :
    containsSub l sub = true := by
  unfold containsSub
  rw [h]
  rfl

theorem containsSub_append_right (a b sub : List Char) (h : containsSub b sub = true) :
    containsSub (a ++ b) sub = true := by
  induction a with
  | nil => simpa using h
  | cons x t ih =>
    unfold containsSub
    rcases hp : sub.isPrefixOf (x :: t ++ b)
    · simpa using ih
    · rfl

theorem containsSub_append_left (a b sub : List Char) (h : containsSub a sub = true) :
    containsSub (a ++ b) sub = true := by
  induction a with
  | nil =>
    unfold containsSub at h
    rcases hp : sub.isPrefixOf ([] : List Char)
    · rw [hp] at h
      simp at h
    · have : sub = [] := by
        rwa [List.isPrefixOf_iff_prefix, List.prefix_nil] at hp
      subst this
      apply containsSub_of_isPrefixOf
      simp [List.isPrefixOf_iff_prefix]
  | cons x t ih =>
    unfold containsSub at h ⊢
    rcases hp : sub.isPrefixOf (x :: t)
    · rw [hp] at h
      simp only [Bool.false_or] at h
      have := ih h
      rcases hq : sub.isPrefixOf (x :: t ++ b)
      · simpa using this
      · rfl
    · have : sub.isPrefixOf (x :: t ++ b) = true := by
        rw [List.isPrefixOf_iff_prefix] at hp ⊢
        exact hp.trans (List.prefix_append _ _)
      rw [this]
      rfl

theorem strContains_append_left (a b sub : String) (h : strContains a sub = true) :
    strContains (a ++ b) sub = true := by
  unfold strContains at h ⊢
  rw [String.data_append]
  exact containsSub_append_left _ _ _ h

theorem strContains_append_right (a b sub : String) (h : strContains b sub = true) :
    strContains (a ++ b) sub = true := by
  unfold strContains at h ⊢
  rw [String.data_append]
  exact containsSub_append_right _ _ _ h

/-- A string occurs in the joined list whenever it occurs in a member. -/
theorem strContains_joinSep (sep : String) (l : List String) (m sub : String)
    (hm : m ∈ l) (h : strContains m sub = true) :
    strContains (joinSep sep l) sub = true := by
  induction l with
  | nil => cases hm
  | cons x t ih =>
    cases t with
    | nil =>
      rw [List.mem_singleton] at hm
      subst hm
      exact h
    | cons y t' =>
      rcases List.mem_cons.1 hm with hm | hm
      · subst hm
        show strContains (m ++ sep ++ joinSep sep (y :: t')) sub = true
        exact strContains_append_left _ _ _ (strContains_append_left _ _ _ h)
      · show strContains (x ++ sep ++ joinSep sep (y :: t')) sub = true
        exact strContains_append_right _ _ _ (ih hm)

/-- The drawdown rejection message is tagged as a kill switch. -/
theorem drawdownMsg_killswitch (dd lim : ℚ) :
    strContains (drawdownMsg dd lim) "KILL SWITCH" = true := by
  unfold drawdownMsg
  apply strContains_append_left
  apply strContains_append_left
  apply strContains_append_left
  apply strContains_append_left
  decide

/-! ## C2 -/

/-- C2: whenever the peak is positive and the drawdown
`(peak_value − portfolio_value)/peak_value × 100` has reached
`max_portfolio_drawdown_pct`, `validate_trade` rejects every BUY or SELL
signal — whatever its confidence and risk-reward ratio — and the reason
(the join of all failing rules) contains the kill-switch-tagged drawdown
message. -/
theorem validate_trade_drawdown_killswitch (e : RiskEngine) (s : Signal)
    (hpeak : 0 < e.peak_value)
    (hdd : e.max_portfolio_drawdown_pct ≤ (e.peak_value - e.portfolio_value) / e.peak_value * 100)
    (hdec : s.decision.getD "HOLD" = "BUY" ∨ s.decision.getD "HOLD" = "SELL") :
    (e.validate_trade s).1.approved = false ∧
    drawdownMsg e.currentDrawdown e.max_portfolio_drawdown_pct ∈ e.rejectionsOf s ∧
    (e.validate_trade s).1.reason = joinSep " | " (e.rejectionsOf s) ∧
    strContains (e.validate_trade s).1.reason "KILL SWITCH" = true := by
  have hcd : e.currentDrawdown = (e.peak_value - e.portfolio_value) / e.peak_value * 100 := by
    unfold RiskEngine.currentDrawdown
    rw [if_pos hpeak]
  have hcond : e.currentDrawdown ≥ e.max_portfolio_drawdown_pct := by
    rw [hcd]
    exact hdd
  have hmem : drawdownMsg e.currentDrawdown e.max_portfolio_drawdown_pct ∈ e.rejectionsOf s := by
    simp only [RiskEngine.rejectionsOf]
    refine List.mem_append.2 (Or.inr ?_)
    rw [if_pos hcond]
    exact List.mem_singleton.2 rfl
  have hhold : ¬ s.decision.getD "HOLD" = "HOLD" := by
    rcases hdec with h | h
    · rw [h]
      decide
    · rw [h]
      decide
  have hne : e.rejectionsOf s ≠ [] := List.ne_nil_of_mem hmem
  simp only [RiskEngine.validate_trade]
  rw [if_neg hhold, if_neg hne]
  exact ⟨rfl, hmem, rfl, strContains_joinSep _ _ _ _ hmem
    (drawdownMsg_killswitch e.currentDrawdown e.max_portfolio_drawdown_pct)⟩

/-- C2 witness: the theorem applied at the spec's worked example — peak
120000, value 100000, limit 15, drawdown 50/3 ≈ 16.67% — on a
high-confidence BUY signal. -/
theorem validate_trade_drawdown_killswitch_witness :
    ((0 : ℚ) < 120000 ∧
      ({ RiskEngine.init {} with portfolio_value := 100000, peak_value := 120000 } : RiskEngine).currentDrawdown = 50/3 ∧
      (15 : ℚ) ≤ (120000 - 100000) / 120000 * 100) ∧
    (({ RiskEngine.init {} with portfolio_value := 100000, peak_value := 120000 } : RiskEngine).validate_trade
      { decision := some "BUY", confidence := some (99/100), risk_reward_ratio := some 3 }).1.approved = false ∧
    strContains (({ RiskEngine.init {} with portfolio_value := 100000, peak_value := 120000 } : RiskEngine).validate_trade
      { decision := some "BUY", confidence := some (99/100), risk_reward_ratio := some 3 }).1.reason "KILL SWITCH" = true := by
  have h := validate_trade_drawdown_killswitch
    { RiskEngine.init {} with portfolio_value := 100000, peak_value := 120000 }
    { decision := some "BUY", confidence := some (99/100), risk_reward_ratio := some 3 }
    (by norm_num [RiskEngine.init]) (by norm_num [RiskEngine.init]) (Or.inl rfl)
  refine ⟨⟨by norm_num, ?_, by norm_num⟩, h.1, h.2.2.2⟩
  norm_num [RiskEngine.currentDrawdown, RiskEngine.init]

/-! ## C6 -/

/-- C6: with confidence 0.3 and risk-reward 1.0 under the default
thresholds, `validate_trade` rejects and the single reason string joins
*both* failing rules' messages with " | " — no short-circuiting. -/
theorem validate_trade_reports_all_failures (s : Signal)
    (hc : s.confidence = some (3/10)) (hr : s.risk_reward_ratio = some 1)
    (hdec : s.decision = some "BUY" ∨ s.decision = some "SELL") :
    ((RiskEngine.init {}).validate_trade s).1.approved = false ∧
    ((RiskEngine.init {}).validate_trade s).1.reason =
      "Confidence 0.30 below minimum 0.50 | Risk-reward ratio 1.00 below minimum 1.50" ∧
    strContains ((RiskEngine.init {}).validate_trade s).1.reason
      "Confidence 0.30 below minimum 0.50" = true ∧
    strContains ((RiskEngine.init {}).validate_trade s).1.reason
      "Risk-reward ratio 1.00 below minimum 1.50" = true := by
  have hm1 : confidenceMsg (3/10) (1/2) = "Confidence 0.30 below minimum 0.50" := by
    norm_num [confidenceMsg, formatFixed, roundHalfEven, padZeros]
    rfl
  have hm2 : riskRewardMsg 1 (3/2) = "Risk-reward ratio 1.00 below minimum 1.50" := by
    norm_num [riskRewardMsg, formatFixed, roundHalfEven, padZeros]
    rfl
  have hrej : (RiskEngine.init {}).rejectionsOf s =
      [confidenceMsg (3/10) (1/2), riskRewardMsg 1 (3/2)] := by
    rcases hdec with h | h <;>
      norm_num [RiskEngine.rejectionsOf, RiskEngine.init, RiskEngine.dailyLossPct,
        RiskEngine.currentDrawdown, hc, hr, h] <;>
      decide
  have hhold : ¬ s.decision.getD "HOLD" = "HOLD" := by
    rcases hdec with h | h
    · rw [h]
      decide
    · rw [h]
      decide
  have hne : (RiskEngine.init {}).rejectionsOf s ≠ [] := by
    rw [hrej]
    exact List.cons_ne_nil _ _
  have hreason : ((RiskEngine.init {}).validate_trade s).1.reason =
      "Confidence 0.30 below minimum 0.50 | Risk-reward ratio 1.00 below minimum 1.50" := by
    simp only [RiskEngine.validate_trade]
    rw [if_neg hhold, if_neg hne]
    show joinSep " | " ((RiskEngine.init {}).rejectionsOf s) = _
    rw [hrej]
    show confidenceMsg (3/10) (1/2) ++ " | " ++ riskRewardMsg 1 (3/2) = _
    rw [hm1, hm2]
    decide
  refine ⟨?_, hreason, ?_, ?_⟩
  · simp only [RiskEngine.validate_trade]
    rw [if_neg hhold, if_neg hne]
  · rw [hreason]
    decide
  · rw [hreason]
    decide

/-- C6 witness: the theorem applied to a concrete BUY signal with
confidence 0.3 and risk-reward 1.0. -/
theorem validate_trade_reports_all_failures_witness :
    (({ decision := some "BUY", confidence := some (3/10), risk_reward_ratio := some 1 } : Signal).confidence = some (3/10)) ∧
    ((RiskEngine.init {}).validate_trade
      { decision := some "BUY", confidence := some (3/10), risk_reward_ratio := some 1 }).1.approved = false ∧
    ((RiskEngine.init {}).validate_trade
      { decision := some "BUY", confidence := some (3/10), risk_reward_ratio := some 1 }).1.reason =
      "Confidence 0.30 below minimum 0.50 | Risk-reward ratio 1.00 below minimum 1.50" := by
  have h := validate_trade_reports_all_failures
    { decision := some "BUY", confidence := some (3/10), risk_reward_ratio := some 1 }
    rfl rfl (Or.inl rfl)
  exact ⟨rfl, h.1, h.2.1⟩

/-! ## C4 -/

/-- C4: for BUY/SELL, a failed price-history fetch, or one returning no
data or fewer than 30 observations, yields `approved = true` together with
one of the explanatory fail-open reasons — missing data never blocks a
trade. -/
theorem backtest_fail_open (b : Backtester) (ticker decision : String) (stop_loss_pct target_pct : ℚ)
    (fetch : Except String (List ℚ))
    (hdec : decision = "BUY" ∨ decision = "SELL")
    (hdata : (∃ msg, fetch = .error msg) ∨ ∃ closes, fetch = .ok closes ∧ closes.length < 30) :
    (b.backtest_signal ticker decision stop_loss_pct target_pct fetch).approved = true ∧
    ((∃ msg, (b.backtest_signal ticker decision stop_loss_pct target_pct fetch).reason = backtestErrorReason msg) ∨
      (b.backtest_signal ticker decision stop_loss_pct target_pct fetch).reason = insufficientDataReason ticker) := by
  have hhold : ¬ decision = "HOLD" := by
    rcases hdec with h | h
    · rw [h]
      decide
    · rw [h]
      decide
  rcases hdata with ⟨msg, hmsg⟩ | ⟨closes, hcl, hlen⟩
  · subst hmsg
    simp only [Backtester.backtest_signal]
    rw [if_neg hhold]
    exact ⟨rfl, Or.inl ⟨msg, rfl⟩⟩
  · subst hcl
    simp only [Backtester.backtest_signal]
    rw [if_neg hhold, if_pos hlen]
    exact ⟨rfl, Or.inr rfl⟩

/-- C4 witness: the theorem applied to a BUY signal whose fetch returned
an empty series. -/
theorem backtest_fail_open_witness :
    (("BUY" : String) = "BUY" ∨ ("BUY" : String) = "SELL") ∧
    ((Backtester.init {}).backtest_signal "TCS" "BUY" (-5) 10 (.ok [])).approved = true :=
  ⟨Or.inl rfl,
   (backtest_fail_open (Backtester.init {}) "TCS" "BUY" (-5) 10 (.ok [])
     (Or.inl rfl) (Or.inr ⟨[], rfl, by norm_num⟩)).1⟩

/-- Exiting at the exact stop level realizes exactly the stop return. -/
theorem tradeChange_stopExit (entry sl : ℚ) (h : entry ≠ 0) (d : String)
    (hd : d = "BUY" ∨ d = "SELL") :
    tradeChange d entry (stopExitPrice d entry sl) = sl := by
  rcases hd with h' | h'
  · subst h'
    unfold tradeChange stopExitPrice
    rw [if_pos rfl, if_pos rfl]
    field_simp
    ring
  · subst h'
    unfold tradeChange stopExitPrice
    rw [if_neg (by decide), if_neg (by decide)]
    field_simp
    ring

/-- Exiting at the exact target level realizes exactly the target return. -/
theorem tradeChange_targetExit (entry tp : ℚ) (h : entry ≠ 0) (d : String)
    (hd : d = "BUY" ∨ d = "SELL") :
    tradeChange d entry (targetExitPrice d entry tp) = tp := by
  rcases hd with h' | h'
  · subst h'
    unfold tradeChange targetExitPrice
    rw [if_pos rfl, if_pos rfl]
    field_simp
    ring
  · subst h'
    unfold tradeChange targetExitPrice
    rw [if_neg (by decide), if_neg (by decide)]
    field_simp
    ring

/-- Exit characterization of the inner bar walk: a stop exit realizes
exactly `sl`, a target exit exactly `tp`, and a window-end exit a return
strictly between the two. -/
theorem walkBars_spec (d : String) (hd : d = "BUY" ∨ d = "SELL") (sl tp entry : ℚ)
    (hentry : 0 < entry) :
    ∀ path : List ℚ, path ≠ [] →
      ((walkBars d sl tp entry path).2 = .stop →
        tradeChange d entry (walkBars d sl tp entry path).1 = sl) ∧
      ((walkBars d sl tp entry path).2 = .target →
        tradeChange d entry (walkBars d sl tp entry path).1 = tp) ∧
      ((walkBars d sl tp entry path).2 = .window →
        sl < tradeChange d entry (walkBars d sl tp entry path).1 ∧
        tradeChange d entry (walkBars d sl tp entry path).1 < tp) := by
  intro path
  induction path with
  | nil => intro hne; exact absurd rfl hne
  | cons x rest ih =>
    intro _
    have hw : walkBars d sl tp entry (x :: rest) =
        (if tradeChange d entry x ≤ sl then (stopExitPrice d entry sl, ExitKind.stop)
         else if tradeChange d entry x ≥ tp then (targetExitPrice d entry tp, ExitKind.target)
         else if rest = [] then (x, ExitKind.window)
         else walkBars d sl tp entry rest) := by
      simp only [walkBars]
      rw [if_pos hd]
    by_cases h1 : tradeChange d entry x ≤ sl
    · rw [hw, if_pos h1]
      refine ⟨fun _ => tradeChange_stopExit entry sl (ne_of_gt hentry) d hd, fun hk => ?_, fun hk => ?_⟩
      · cases hk
      · cases hk
    · by_cases h2 : tradeChange d entry x ≥ tp
      · rw [hw, if_neg h1, if_pos h2]
        refine ⟨fun hk => ?_, fun _ => tradeChange_targetExit entry tp (ne_of_gt hentry) d hd, fun hk => ?_⟩
        · cases hk
        · cases hk
      · by_cases h3 : rest = []
        · rw [hw, if_neg h1, if_neg h2, if_pos h3]
          refine ⟨fun hk => ?_, fun hk => ?_, fun _ => ⟨not_le.1 h1, not_le.1 h2⟩⟩
          · cases hk
          · cases hk
        · rw [hw, if_neg h1, if_neg h2, if_neg h3]
          exact ih h3

/-! ## C10 -/

/-- C10: with positive prices, a positive hold window and a BUY/SELL
decision, every per-trade return recorded by `_simulate_trades` lies in
`[-|stop_loss_pct|, |target_pct|]`; per entry, a stop exit returns exactly
`-|stop_loss_pct|`, a target exit exactly `|target_pct|`, and a
window-end exit strictly between the two. -/
theorem simulate_trades_bounds (closes : List ℚ) (decision : String) (slp tpp : ℚ) (hold : Nat)
    (hpos : ∀ c ∈ closes, 0 < c) (hhold : 1 ≤ hold) (hd : decision = "BUY" ∨ decision = "SELL") :
    (∀ r ∈ simulateTrades closes decision slp tpp hold, -|slp| ≤ r ∧ r ≤ |tpp|) ∧
    (∀ i ∈ entryIndices closes.length hold,
      ((tradeOutcome closes decision slp tpp hold i).2 = .stop →
        (tradeOutcome closes decision slp tpp hold i).1 = -|slp|) ∧
      ((tradeOutcome closes decision slp tpp hold i).2 = .target →
        (tradeOutcome closes decision slp tpp hold i).1 = |tpp|) ∧
      ((tradeOutcome closes decision slp tpp hold i).2 = .window →
        -|slp| < (tradeOutcome closes decision slp tpp hold i).1 ∧
        (tradeOutcome closes decision slp tpp hold i).1 < |tpp|)) := by
  have hspec : ∀ i ∈ entryIndices closes.length hold,
      ((tradeOutcome closes decision slp tpp hold i).2 = .stop →
        (tradeOutcome closes decision slp tpp hold i).1 = -|slp|) ∧
      ((tradeOutcome closes decision slp tpp hold i).2 = .target →
        (tradeOutcome closes decision slp tpp hold i).1 = |tpp|) ∧
      ((tradeOutcome closes decision slp tpp hold i).2 = .window →
        -|slp| < (tradeOutcome closes decision slp tpp hold i).1 ∧
        (tradeOutcome closes decision slp tpp hold i).1 < |tpp|) := by
    intro i hi
    have hilt : i < closes.length - hold :=
      List.mem_range.1 (List.mem_filter.1 hi).1
    have hient : i < closes.length := by omega
    have hentry : 0 < closes.getD i 0 := by
      apply hpos
      rw [List.getD_eq_getElem?_getD, List.getElem?_eq_getElem hient, Option.getD_some]
      exact List.getElem_mem hient
    have hpathlen : (entryPath closes i hold).length = hold := by
      unfold entryPath
      rw [List.length_take, List.length_drop]
      omega
    have hpath : entryPath closes i hold ≠ [] := by
      intro hnil
      rw [hnil] at hpathlen
      simp only [List.length_nil] at hpathlen
      omega
    exact walkBars_spec decision hd (-|slp|) |tpp| (closes.getD i 0) hentry
      (entryPath closes i hold) hpath
  refine ⟨?_, hspec⟩
  intro r hr
  rw [simulateTrades_eq_map] at hr
  rcases List.mem_map.1 hr with ⟨i, hi, hri⟩
  have h := hspec i hi
  rw [← hri]
  have habs : -|slp| ≤ 0 := neg_nonpos.2 (abs_nonneg slp)
  cases hk : (tradeOutcome closes decision slp tpp hold i).2 with
  | stop =>
    rw [h.1 hk]
    exact ⟨le_refl _, habs.trans (abs_nonneg tpp)⟩
  | target =>
    rw [h.2.1 hk]
    exact ⟨(abs_nonneg tpp).trans' habs, le_refl _⟩
  | window =>
    rcases h.2.2 hk with ⟨hlo, hhi⟩
    exact ⟨le_of_lt hlo, le_of_lt hhi⟩

/-- C10 witness: on the series `[100, 90]` with hold window 1, the single
BUY entry breaches the −5% stop and the recorded return is exactly −5. -/
theorem simulate_trades_bounds_witness :
    ((∀ c ∈ ([100, 90] : List ℚ), 0 < c) ∧ 1 ≤ 1) ∧
    (∀ r ∈ simulateTrades [100, 90] "BUY" (-5) 10 1, -|(-5 : ℚ)| ≤ r ∧ r ≤ |(10 : ℚ)|) ∧
    simulateTrades [100, 90] "BUY" (-5) 10 1 = [-5] :=
  ⟨⟨by norm_num, le_refl 1⟩,
   (simulate_trades_bounds [100, 90] "BUY" (-5) 10 1 (by norm_num) (le_refl 1) (Or.inl rfl)).1,
   by norm_num [simulateTrades, entryIndices, entryPath, walkBars, tradeChange,
     stopExitPrice, List.range_succ]⟩

/-- Lemma: `validate_trade` never changes the `decision` entry of the signal. -/
theorem RiskEngine.validate_trade_adjusted_decision (e : RiskEngine) (s : Signal) :
    (e.validate_trade s).1.adjusted_signal.decision = s.decision := by
  rcases RiskEngine.validate_trade_adjusted e s with h | ⟨_, h⟩ <;> rw [h]

/-- Stages 3-5 always return a structured result when the signal carries a
decision entry. -/
theorem Validator.pipelineTail_isOk (v : Validator) (signal : Signal) (p : ℚ) (t : String)
    (sb : BacktestStep) (now : String) (d : String) (h : signal.decision = some d) :
    ∃ out, v.pipelineTail signal p t sb now = .ok out := by
  simp only [Validator.pipelineTail]
  split
  · exact ⟨_, rfl⟩
  · split
    · exact ⟨_, rfl⟩
    · have hd : (v.risk_engine.validate_trade signal).1.adjusted_signal.decision = some d := by
        rw [RiskEngine.validate_trade_adjusted_decision, h]
      rw [hd]
      exact ⟨_, rfl⟩

/-- A completed run of stages 3-5 returns the risk engine unchanged, stamps
the result with the supplied clock reading, and hands back the
(possibly stop-defaulted) adjusted signal. -/
theorem Validator.pipelineTail_shape (v : Validator) (signal : Signal) (p : ℚ) (t : String)
    (sb : BacktestStep) (now : String) (res : ValidationResult) (sig' : Signal) (e' : RiskEngine)
    (h : v.pipelineTail signal p t sb now = .ok (res, sig', e')) :
    e' = v.risk_engine ∧ res.timestamp = now ∧
    sig' = (v.risk_engine.validate_trade signal).1.adjusted_signal := by
  simp only [Validator.pipelineTail] at h
  split at h
  · rw [Except.ok.injEq, Prod.mk.injEq, Prod.mk.injEq] at h
    obtain ⟨h1, h2, h3⟩ := h
    subst h1
    subst h2
    subst h3
    exact ⟨RiskEngine.validate_trade_snd _ _, rfl, rfl⟩
  · split at h
    · rw [Except.ok.injEq, Prod.mk.injEq, Prod.mk.injEq] at h
      obtain ⟨h1, h2, h3⟩ := h
      subst h1
      subst h2
      subst h3
      exact ⟨RiskEngine.validate_trade_snd _ _, rfl, rfl⟩
    · split at h
      · cases h
      · rw [Except.ok.injEq, Prod.mk.injEq, Prod.mk.injEq] at h
        obtain ⟨h1, h2, h3⟩ := h
        subst h1
        subst h2
        subst h3
        exact ⟨RiskEngine.validate_trade_snd _ _, rfl, rfl⟩

/-- A completed `validate_and_size` run returns the risk engine unchanged,
stamps the result with the supplied clock reading, and hands back either
the ticker-stamped signal or its risk-adjusted version. -/
theorem Validator.validate_and_size_shape (v : Validator) (s : Signal) (p : ℚ) (t : String)
    (skip_backtest : Bool) (fetch : Except String (List ℚ)) (now : String)
    (res : ValidationResult) (sig' : Signal) (e' : RiskEngine)
    (h : v.validate_and_size s p t skip_backtest fetch now = .ok (res, sig', e')) :
    e' = v.risk_engine ∧ res.timestamp = now ∧
    (sig' = { s with ticker := some t } ∨
      sig' = (v.risk_engine.validate_trade { s with ticker := some t }).1.adjusted_signal) := by
  simp only [Validator.validate_and_size] at h
  split at h
  · rw [Except.ok.injEq, Prod.mk.injEq, Prod.mk.injEq] at h
    obtain ⟨h1, h2, h3⟩ := h
    subst h1
    subst h2
    subst h3
    exact ⟨rfl, rfl, Or.inl rfl⟩
  · split at h
    · have := Validator.pipelineTail_shape v _ p t _ now res sig' e' h
      exact ⟨this.1, this.2.1, Or.inr this.2.2⟩
    · split at h
      · cases h
      · split at h
        · rw [Except.ok.injEq, Prod.mk.injEq, Prod.mk.injEq] at h
          obtain ⟨h1, h2, h3⟩ := h
          subst h1
          subst h2
          subst h3
          exact ⟨rfl, rfl, Or.inl rfl⟩
        · have := Validator.pipelineTail_shape v _ p t _ now res sig' e' h
          exact ⟨this.1, this.2.1, Or.inr this.2.2⟩

/-- Whether an `Except` carries a structured result rather than a raised
exception. -/
def exceptIsOk {ε α : Type} : Except ε α → Bool
  | .ok _ => true
  | .error _ => false

/-! ## C1 -/

/-- C1 (counterexample): on a signal dict without a `decision` key and
with backtesting enabled, `validate_and_size` raises `KeyError` at
`signal["decision"]` instead of returning a structured result. -/
theorem c1_counterexample :
    (Validator.init {}).validate_and_size { confidence := some (9/10) } 100 "TCS" false
      (.ok []) "t0" = .error "KeyError: decision" := rfl

/-- C1 (amended): provided the signal dict carries a `decision` entry,
`validate_and_size` always returns a structured result and never raises
(the RiskEngine / PositionSizer / SimpleBacktester operations themselves
are total functions of the embedding). -/
theorem validate_and_size_total (v : Validator) (s : Signal) (p : ℚ) (t : String)
    (skip_backtest : Bool) (fetch : Except String (List ℚ)) (now : String) (d : String)
    (h : s.decision = some d) :
    exceptIsOk (v.validate_and_size s p t skip_backtest fetch now) = true := by
  have h1 : ({ s with ticker := some t } : Signal).decision = some d := h
  simp only [Validator.validate_and_size]
  split
  · rfl
  · split
    · obtain ⟨out, hout⟩ := Validator.pipelineTail_isOk v _ p t .skipped now d h1
      rw [hout]
      rfl
    · split
      · rename_i heq
        rw [h1] at heq
        cases heq
      · rename_i d' heq
        split
        · rfl
        · obtain ⟨out, hout⟩ := Validator.pipelineTail_isOk v _ p t _ now d h1
          rw [hout]
          rfl

/-- C1 witness: the totality theorem applied to a complete BUY signal. -/
theorem validate_and_size_total_witness :
    (({ decision := some "BUY", confidence := some (9/10), stop_loss_pct := some (-5),
        target_pct := some 10, risk_reward_ratio := some 2 } : Signal).decision = some "BUY") ∧
    exceptIsOk ((Validator.init {}).validate_and_size
      { decision := some "BUY", confidence := some (9/10), stop_loss_pct := some (-5),
        target_pct := some 10, risk_reward_ratio := some 2 } 100 "TCS" true (.ok []) "t0") = true :=
  ⟨rfl, validate_and_size_total (Validator.init {})
    { decision := some "BUY", confidence := some (9/10), stop_loss_pct := some (-5),
      target_pct := some 10, risk_reward_ratio := some 2 } 100 "TCS" true (.ok []) "t0" "BUY" rfl⟩

/-! ## C7 -/

/-- C7 (counterexample): two calls identical in signal, price, ticker,
portfolio state and price-history snapshot, but made at different clock
readings, return different ValidationResult dicts — the `timestamp` field
records `datetime.now()` of each call. -/
theorem c7_counterexample :
    (Validator.init {}).validate_and_size { decision := some "HOLD" } 100 "TCS" true (.ok [])
        "2026-01-01T10:00:00" ≠
      (Validator.init {}).validate_and_size { decision := some "HOLD" } 100 "TCS" true (.ok [])
        "2026-01-01T10:00:05" := by
  intro h
  rw [show (Validator.init {}).validate_and_size { decision := some "HOLD" } 100 "TCS" true
      (.ok []) "2026-01-01T10:00:00" =
      .ok ({ ticker := "TCS", decision := "HOLD", current_price := 100,
             timestamp := "2026-01-01T10:00:00", steps_backtest := none, steps_risk := none,
             steps_position_sizing := none, approved := true, order := none,
             reason := "HOLD signal — no order generated", warnings := none },
           { decision := some "HOLD", ticker := some "TCS" },
           (Validator.init {}).risk_engine) from rfl,
     show (Validator.init {}).validate_and_size { decision := some "HOLD" } 100 "TCS" true
      (.ok []) "2026-01-01T10:00:05" =
      .ok ({ ticker := "TCS", decision := "HOLD", current_price := 100,
             timestamp := "2026-01-01T10:00:05", steps_backtest := none, steps_risk := none,
             steps_position_sizing := none, approved := true, order := none,
             reason := "HOLD signal — no order generated", warnings := none },
           { decision := some "HOLD", ticker := some "TCS" },
           (Validator.init {}).risk_engine) from rfl] at h
  rw [Except.ok.injEq, Prod.mk.injEq] at h
  have ht := congrArg ValidationResult.timestamp h.1
  revert ht
  decide

/-- C7 (amended): with the clock reading and the price-history snapshot
held fixed alongside the signal, price and ticker, `validate_and_size` is
deterministic, and every completed call leaves the risk engine's portfolio
state unchanged (so a second call indeed runs from the same state) and
stamps the result with that clock reading. -/
theorem validate_and_size_deterministic (v : Validator) (s : Signal) (p : ℚ) (t : String)
    (skip_backtest : Bool) (fetch : Except String (List ℚ)) (now : String) :
    v.validate_and_size s p t skip_backtest fetch now =
      v.validate_and_size s p t skip_backtest fetch now ∧
    ∀ res sig' e', v.validate_and_size s p t skip_backtest fetch now = .ok (res, sig', e') →
      e' = v.risk_engine ∧ res.timestamp = now := by
  refine ⟨rfl, fun res sig' e' h => ?_⟩
  have hs := Validator.validate_and_size_shape v s p t skip_backtest fetch now res sig' e' h
  exact ⟨hs.1, hs.2.1⟩

/-- C7 witness: the determinism/purity theorem applied to a concrete HOLD
call. -/
theorem validate_and_size_deterministic_witness :
    ((Validator.init {}).validate_and_size { decision := some "HOLD" } 100 "TCS" true (.ok [])
        "t0" =
      .ok ({ ticker := "TCS", decision := "HOLD", current_price := 100, timestamp := "t0",
             steps_backtest := none, steps_risk := none, steps_position_sizing := none,
             approved := true, order := none, reason := "HOLD signal — no order generated",
             warnings := none },
           { decision := some "HOLD", ticker := some "TCS" },
           (Validator.init {}).risk_engine)) ∧
    ((Validator.init {}).risk_engine = (Validator.init {}).risk_engine ∧
      ({ ticker := "TCS", decision := "HOLD", current_price := 100, timestamp := "t0",
         steps_backtest := none, steps_risk := none, steps_position_sizing := none,
         approved := true, order := none, reason := "HOLD signal — no order generated",
         warnings := none } : ValidationResult).timestamp = "t0") :=
  ⟨rfl, (validate_and_size_deterministic (Validator.init {}) { decision := some "HOLD" } 100
    "TCS" true (.ok []) "t0").2 _ _ _ rfl⟩

/-! ## C8 -/

/-- C8 (counterexample): the pipeline overwrites the caller's `ticker`
entry (`signal["ticker"] = ticker`): a signal entering with ticker "AAA"
leaves the completed call with ticker "BBB". -/
theorem c8_counterexample :
    (({ decision := some "HOLD", ticker := some "AAA" } : Signal).ticker = some "AAA") ∧
    ((Validator.init {}).validate_and_size { decision := some "HOLD", ticker := some "AAA" }
        100 "BBB" true (.ok []) "t0").map (fun out => out.2.1.ticker) =
      .ok (some "BBB") :=
  ⟨rfl, rfl⟩

/-- C8 (amended): a completed `validate_and_size` call leaves every field
of the signal unchanged except that `ticker` is set to the ticker argument
and a missing/zero `stop_loss_pct` may be defaulted to −5 (the rule-8
warning path of `validate_trade`). -/
theorem validate_and_size_signal_frame (v : Validator) (s : Signal) (p : ℚ) (t : String)
    (skip_backtest : Bool) (fetch : Except String (List ℚ)) (now : String)
    (res : ValidationResult) (sig' : Signal) (e' : RiskEngine)
    (h : v.validate_and_size s p t skip_backtest fetch now = .ok (res, sig', e')) :
    sig'.decision = s.decision ∧ sig'.confidence = s.confidence ∧
    sig'.target_pct = s.target_pct ∧ sig'.risk_reward_ratio = s.risk_reward_ratio ∧
    sig'.rationale = s.rationale ∧ sig'.ticker = some t ∧
    (sig'.stop_loss_pct = s.stop_loss_pct ∨
      (s.stop_loss_pct.getD 0 = 0 ∧ sig'.stop_loss_pct = some (-5))) := by
  have hs := (Validator.validate_and_size_shape v s p t skip_backtest fetch now res sig' e' h).2.2
  rcases hs with hs | hs
  · subst hs
    exact ⟨rfl, rfl, rfl, rfl, rfl, rfl, Or.inl rfl⟩
  · rcases RiskEngine.validate_trade_adjusted v.risk_engine { s with ticker := some t } with
      ha | ⟨h0, ha⟩
    · rw [ha] at hs
      subst hs
      exact ⟨rfl, rfl, rfl, rfl, rfl, rfl, Or.inl rfl⟩
    · rw [ha] at hs
      subst hs
      exact ⟨rfl, rfl, rfl, rfl, rfl, rfl, Or.inr ⟨h0, rfl⟩⟩

/-- C8 witness: the frame theorem applied to a completed HOLD call with an
explicit stop-loss. -/
theorem validate_and_size_signal_frame_witness :
    ((Validator.init {}).validate_and_size { decision := some "HOLD", stop_loss_pct := some (-4) }
        100 "TCS" true (.ok []) "t0" =
      .ok ({ ticker := "TCS", decision := "HOLD", current_price := 100, timestamp := "t0",
             steps_backtest := none, steps_risk := none, steps_position_sizing := none,
             approved := true, order := none, reason := "HOLD signal — no order generated",
             warnings := none },
           { decision := some "HOLD", stop_loss_pct := some (-4), ticker := some "TCS" },
           (Validator.init {}).risk_engine)) ∧
    ({ decision := some "HOLD", stop_loss_pct := some (-4), ticker := some "TCS" } : Signal).ticker =
      some "TCS" ∧
    (({ decision := some "HOLD", stop_loss_pct := some (-4), ticker := some "TCS" } : Signal).stop_loss_pct =
        ({ decision := some "HOLD", stop_loss_pct := some (-4) } : Signal).stop_loss_pct ∨
      (({ decision := some "HOLD", stop_loss_pct := some (-4) } : Signal).stop_loss_pct.getD 0 = 0 ∧
        ({ decision := some "HOLD", stop_loss_pct := some (-4), ticker := some "TCS" } : Signal).stop_loss_pct =
          some (-5))) := by
  have h := validate_and_size_signal_frame (Validator.init {})
    { decision := some "HOLD", stop_loss_pct := some (-4) } 100 "TCS" true (.ok []) "t0"
    _ _ _ rfl
  exact ⟨rfl, h.2.2.2.2.2.1, h.2.2.2.2.2.2⟩

end AQI
